import Mathlib

/-!
Verification development for the static blog generator in generate_blog.py.

Shallow embedding conventions:
- Python strings are modelled as lists of characters (abbrev Str := List Char),
  so Python len / slicing correspond to List.length / List.take.
- File-system and clock effects are passed in explicitly: the formatted file
  modification time, the formatted current date, the contents of files and the
  directory listing are parameters of the modelled functions.
- The three re.search patterns used by the extractor are modelled by dedicated
  scanning functions that implement exactly the leftmost-match-with-backtracking
  behaviour of those concrete patterns.
- Character predicates (whitespace, upper/lower case) are modelled for the
  ASCII range, matching the behaviour of the Python ones on ASCII text.
-/

abbrev Str := List Char

/-- Whitespace stripped by Python str.strip and str.split (ASCII range). -/
def pyIsSpace (c : Char) : Bool :=
  c = ' ' || c = '\t' || c = '\n' || c = '\r' || c = '\x0b' || c = '\x0c'

/-- Python str.strip with no arguments: drop leading and trailing whitespace. -/
def pyStrip (l : Str) : Str :=
  ((l.dropWhile pyIsSpace).reverse.dropWhile pyIsSpace).reverse

/-- Character comparison used to model re.IGNORECASE (ASCII case folding). -/
def ciEq (a b : Char) : Bool := a.toLower == b.toLower

/-- Case-insensitive literal match at the head of a list. -/
def ciStartsWith : Str → Str → Bool
  | [], _ => true
  | _ :: _, [] => false
  | p :: ps, c :: cs => ciEq p c && ciStartsWith ps cs

/-- The literal <title> of the pattern at line 17 of the source. -/
def titleOpenPat : Str := ['<', 't', 'i', 't', 'l', 'e', '>']

/-- The literal </title> of the pattern at line 17 of the source. -/
def titleClosePat : Str := ['<', '/', 't', 'i', 't', 'l', 'e', '>']

/-- The literal <article> of the pattern at line 21 of the source. -/
def articleOpenPat : Str := ['<', 'a', 'r', 't', 'i', 'c', 'l', 'e', '>']

/-- The literal </article> of the pattern at line 21 of the source. -/
def articleClosePat : Str := ['<', '/', 'a', 'r', 't', 'i', 'c', 'l', 'e', '>']

/-- The literal </p> of the pattern at line 25 of the source. -/
def pClosePat : Str := ['<', '/', 'p', '>']

/-- The group (.*?) of the title pattern, searched without re.DOTALL: it is the
shortest run of characters other than a newline ending right before a
case-insensitive occurrence of </title>; returns none when no such run exists. -/
def titleGroup : Str → Option Str
  | [] => none
  | c :: cs =>
    if ciStartsWith titleClosePat (c :: cs) then some []
    else if c = '\n' then none
    else (titleGroup cs).map (fun g => c :: g)

/-- Model of re.search(r'&lt;title&gt;(.*?)&lt;/title&gt;', content, re.IGNORECASE)
(source line 17): at each position, from left to right, try to match the literal
open tag followed by the non-greedy group; return the first group that matches. -/
def searchTitleTag : Str → Option Str
  | [] => none
  | c :: cs =>
    if ciStartsWith titleOpenPat (c :: cs) then
      match titleGroup ((c :: cs).drop 7) with
      | some g => some g
      | none => searchTitleTag cs
    else searchTitleTag cs

/-- The group (.*?) of the article pattern, searched with re.DOTALL: the
shortest run of any characters ending right before a case-insensitive
occurrence of </article>. -/
def articleGroup : Str → Option Str
  | [] => none
  | c :: cs =>
    if ciStartsWith articleClosePat (c :: cs) then some []
    else (articleGroup cs).map (fun g => c :: g)

/-- Model of re.search(r'&lt;article&gt;(.*?)&lt;/article&gt;', content,
re.DOTALL | re.IGNORECASE) (source line 21). -/
def searchArticleTag : Str → Option Str
  | [] => none
  | c :: cs =>
    if ciStartsWith articleOpenPat (c :: cs) then
      match articleGroup ((c :: cs).drop 9) with
      | some g => some g
      | none => searchArticleTag cs
    else searchArticleTag cs

/-- Match of the opening part &lt;p[^&gt;]*&gt; of the paragraph pattern at the head
of the list: the literal &lt;p, then any characters other than &gt;, then &gt;;
returns the remainder after the closing &gt;. -/
def pTagRest : Str → Option Str
  | '<' :: 'p' :: r =>
    match r.dropWhile (fun c => c ≠ '>') with
    | _ :: r2 => some r2
    | [] => none
  | _ => none

/-- The group (.*?) of the paragraph pattern, searched with re.DOTALL and
case-sensitively: the shortest run of any characters ending right before
an occurrence of </p>. -/
def pGroup : Str → Option Str
  | [] => none
  | c :: cs =>
    if List.isPrefixOf pClosePat (c :: cs) then some []
    else (pGroup cs).map (fun g => c :: g)

/-- Model of re.search(r'&lt;p[^&gt;]*&gt;(.*?)&lt;/p&gt;', article_content, re.DOTALL)
(source line 25). -/
def searchPTag : Str → Option Str
  | [] => none
  | c :: cs =>
    match pTagRest (c :: cs) with
    | some rest =>
      match pGroup rest with
      | some g => some g
      | none => searchPTag cs
    | none => searchPTag cs

/-- Match of [^&gt;]+&gt; directly after a &lt; character: at least one character
other than &gt;, then &gt;; returns the remainder after the closing &gt;. -/
def tagRest : Str → Option Str
  | [] => none
  | c :: rest =>
    if c = '>' then none
    else
      match rest.dropWhile (fun d => d ≠ '>') with
      | _ :: r => some r
      | [] => none

/-- The scan of re.sub(r'&lt;[^&gt;]+&gt;', '', excerpt), written with a fuel counter
so the recursion is structural: each step either copies or removes at least one
character, so any fuel at least the length of the list is enough and the
fuel-exhausted case is never reached from stripTags below. -/
def stripTagsFuel : Nat → Str → Str
  | 0, l => l
  | _ + 1, [] => []
  | fuel + 1, c :: cs =>
    if c = '<' then
      match tagRest cs with
      | some rest => stripTagsFuel fuel rest
      | none => c :: stripTagsFuel fuel cs
    else c :: stripTagsFuel fuel cs

/-- Model of re.sub(r'&lt;[^&gt;]+&gt;', '', excerpt) (source line 29): scan left to
right, removing each non-overlapping match of the tag pattern. -/
def stripTags (l : Str) : Str := stripTagsFuel l.length l

/-- Python str.split() with no separator: the maximal runs of non-whitespace
characters, in order. -/
def pyWords (l : Str) : List Str :=
  (l.splitOnP pyIsSpace).filter (fun w => !w.isEmpty)

/-- Line 30 of the source: ' '.join(excerpt.split()). -/
def pyCleanWS (l : Str) : Str := List.intercalate [' '] (pyWords l)

/-- Lines 31-33 of the source: if len(excerpt) &gt; 150: excerpt = excerpt[:147] + "...". -/
def pyTruncate (e : Str) : Str :=
  if 150 < e.length then e.take 147 ++ ['.', '.', '.'] else e

/-- Lines 21-30 of the source: the cleaned first-paragraph text, before the
length cap; none when the article pattern or the paragraph pattern does not
match, in which case the source falls back to "Read more...". -/
def cleanExcerptOf (content : Str) : Option Str :=
  match searchArticleTag content with
  | none => none
  | some article_content =>
    match searchPTag article_content with
    | none => none
    | some raw => some (pyCleanWS (stripTags raw))

/-- The record returned by extract_metadata_from_html (source lines 43-48). -/
structure ArticleMetadata where
  title : Str
  excerpt : Str
  date : Str
  filename : Str
deriving Repr, DecidableEq

def readMoreLit : Str := String.toList "Read more..."

def untitledLit : Str := String.toList "Untitled"

/-- Python os.path.basename for slash-separated paths. -/
def pyBasename (p : Str) : Str := (p.reverse.takeWhile (fun c => c ≠ '/')).reverse

/-- Model of extract_metadata_from_html (source lines 11-48). The file read and
the modification-time lookup are effects, so the file contents and the string
datetime.fromtimestamp(os.path.getmtime(filepath)).strftime("%B %Y") are passed
in as content and dateStr. -/
def extract_metadata_from_html (content dateStr filepath : Str) : ArticleMetadata :=
  { title :=
      match searchTitleTag content with
      | some t => t
      | none => untitledLit
    excerpt :=
      match cleanExcerptOf content with
      | some e => pyTruncate e
      | none => readMoreLit
    date := dateStr
    filename := pyBasename filepath }

/-- Python text.split('\n\n') for the converter (source line 325): split on
each non-overlapping occurrence of a blank line, left to right. -/
def splitOnBlank : Str → List Str
  | [] => [[]]
  | '\n' :: '\n' :: cs => [] :: splitOnBlank cs
  | c :: cs =>
    match splitOnBlank cs with
    | [] => [[c]]
    | p :: ps => (c :: p) :: ps

/-- Python str.isupper() for ASCII text: at least one letter and no lowercase
letter (source line 338). -/
def pyIsUpper (l : Str) : Bool :=
  l.any (fun c => c.isAlpha) && l.all (fun c => !c.isLower)

/-- The literal <h2> opening a heading element in the converter. -/
def h2OpenLit : Str := ['<', 'h', '2', '>']

/-- The literal </h2> plus the blank line the converter appends after a heading. -/
def h2CloseLit : Str := ['<', '/', 'h', '2', '>', '\n', '\n']

/-- The literal <p> opening a body paragraph element in the converter. -/
def pOpenLit : Str := ['<', 'p', '>']

/-- The literal </p> plus the blank line the converter appends after a paragraph. -/
def pCloseLit : Str := ['<', '/', 'p', '>', '\n', '\n']

/-- The paragraph classification of convert_plain_text_to_html (source lines
329-343): markdown heading when the paragraph starts with a # character (the
second elif on '##' is unreachable and kept as in the source), heading when the
paragraph is upper-case and shorter than 80 characters, body paragraph
otherwise. The level variable of line 332 is computed but never used. -/
def renderPara (para : Str) : Str :=
  if List.isPrefixOf ['#'] para then
    let _level := para.length - (para.dropWhile (fun c => c = '#')).length
    h2OpenLit ++ pyStrip (para.dropWhile (fun c => c = '#')) ++ h2CloseLit
  else if List.isPrefixOf ['#', '#'] para then
    h2OpenLit ++ pyStrip (para.dropWhile (fun c => c = '#')) ++ h2CloseLit
  else if pyIsUpper para ∧ para.length < 80 then
    h2OpenLit ++ para ++ h2CloseLit
  else
    pOpenLit ++ para ++ pCloseLit

/-- Article template of convert_plain_text_to_html (source lines 345-438), segment before the title in the head. -/
def artTplA : Str := String.toList "<!DOCTYPE html>\n<html lang=\"en\">\n<head>\n    <meta charset=\"UTF-8\">\n    <meta name=\"viewport\" content=\"width=device-width, initial-scale=1.0\">\n    <title>"

/-- Article template segment between the head title and the body heading title; contains the full stylesheet. -/
def artTplB : Str := String.toList "</title>\n    <style>\n        * \x7b\n            margin: 0;\n            padding: 0;\n            box-sizing: border-box;\n        \x7d\n\n        body \x7b\n            font-family: -apple-system, BlinkMacSystemFont, \x27Helvetica Neue\x27, sans-serif;\n            background: #ffffff;\n            color: #1d1d1f;\n            padding: 80px 20px;\n            line-height: 1.7;\n            animation: fadeIn 0.6s ease;\n        \x7d\n\n        .container \x7b\n            max-width: 680px;\n            margin: 0 auto;\n        \x7d\n\n        .back \x7b\n            color: #06c;\n            text-decoration: none;\n            font-size: 0.95em;\n            display: inline-block;\n            margin-bottom: 60px;\n            transition: opacity 0.3s ease;\n        \x7d\n\n        .back:hover \x7b\n            opacity: 0.7;\n        \x7d\n\n        h1 \x7b\n            font-size: 3em;\n            font-weight: 600;\n            letter-spacing: -0.02em;\n            margin-bottom: 16px;\n        \x7d\n\n        .date \x7b\n            color: #86868b;\n            margin-bottom: 40px;\n            font-size: 0.95em;\n        \x7d\n\n        article p \x7b\n            font-size: 1.2em;\n            margin-bottom: 24px;\n            color: #1d1d1f;\n            line-height: 1.6;\n        \x7d\n\n        article h2 \x7b\n            font-size: 1.8em;\n            font-weight: 600;\n            margin-top: 48px;\n            margin-bottom: 20px;\n            letter-spacing: -0.01em;\n        \x7d\n\n        @keyframes fadeIn \x7b\n            from \x7b opacity: 0; transform: translateY(10px); \x7d\n            to \x7b opacity: 1; transform: translateY(0); \x7d\n        \x7d\n\n        @media (max-width: 600px) \x7b\n            body \x7b padding: 40px 20px; \x7d\n            h1 \x7b font-size: 2em; \x7d\n            article p \x7b font-size: 1.1em; \x7d\n            article h2 \x7b font-size: 1.5em; \x7d\n        \x7d\n    </style>\n</head>\n<body>\n    <div class=\"container\">\n        <a href=\"../index.html\" class=\"back\">← Essays</a>\n        \n        <h1>"

/-- Article template segment between the body heading and the date. -/
def artTplC : Str := String.toList "</h1>\n        <p class=\"date\">"

/-- Article template segment between the date and the converted body. -/
def artTplD : Str := String.toList "</p>\n        \n        <article>\n"

/-- Article template segment after the converted body. -/
def artTplE : Str := String.toList "\n        </article>\n    </div>\n</body>\n</html>"

/-- Per-article entry template of generate_index_html (source lines 56-67), segment before the filename. -/
def entryTplA : Str := String.toList "\n            <article onclick=\"window.location.href=\x27articles/"

/-- Entry template segment between the filename and the date. -/
def entryTplB : Str := String.toList "\x27\">\n                <div class=\"article-date\">"

/-- Entry template segment between the date and the title. -/
def entryTplC : Str := String.toList "</div>\n                <h2 class=\"article-title\">\n                    "

/-- Entry template segment between the title and the excerpt. -/
def entryTplD : Str := String.toList "\n                    <span class=\"arrow\">→</span>\n                </h2>\n                <p class=\"article-excerpt\">\n                    "

/-- Entry template segment after the excerpt. -/
def entryTplE : Str := String.toList "\n                </p>\n            </article>\n"

/-- Index page template of generate_index_html (source lines 69-317), segment before the blog title in the head. -/
def idxTplA : Str := String.toList "<!DOCTYPE html>\n<html lang=\"en\">\n<head>\n    <meta charset=\"UTF-8\">\n    <meta name=\"viewport\" content=\"width=device-width, initial-scale=1.0\">\n    <title>"

/-- Index template segment between the head title and the portfolio URL; contains the full stylesheet. -/
def idxTplB : Str := String.toList "</title>\n    <style>\n        * \x7b\n            margin: 0;\n            padding: 0;\n            box-sizing: border-box;\n        \x7d\n\n        body \x7b\n            font-family: -apple-system, BlinkMacSystemFont, \x27Helvetica Neue\x27, sans-serif;\n            background: #ffffff;\n            color: #1d1d1f;\n            min-height: 100vh;\n            padding: 80px 20px;\n            line-height: 1.6;\n            overflow-x: hidden;\n        \x7d\n\n        .container \x7b\n            max-width: 680px;\n            margin: 0 auto;\n        \x7d\n\n        header \x7b\n            margin-bottom: 100px;\n            opacity: 0;\n            animation: slideUp 1s ease 0.1s forwards;\n        \x7d\n\n        .back-to-portfolio \x7b\n            color: #06c;\n            text-decoration: none;\n            font-size: 0.95em;\n            display: inline-block;\n            margin-bottom: 40px;\n            transition: opacity 0.3s ease;\n        \x7d\n\n        .back-to-portfolio:hover \x7b\n            opacity: 0.7;\n        \x7d\n\n        h1 \x7b\n            font-size: 3.5em;\n            font-weight: 600;\n            letter-spacing: -0.02em;\n            margin-bottom: 20px;\n            color: #1d1d1f;\n        \x7d\n\n        .intro \x7b\n            font-size: 1.3em;\n            color: #6e6e73;\n            font-weight: 400;\n            max-width: 500px;\n        \x7d\n\n        .essays \x7b\n            display: flex;\n            flex-direction: column;\n            gap: 0;\n        \x7d\n\n        article \x7b\n            border-bottom: 1px solid #e8e8ed;\n            padding: 40px 20px;\n            cursor: pointer;\n            position: relative;\n            opacity: 0;\n            animation: slideUp 0.8s ease forwards;\n            transition: all 0.4s cubic-bezier(0.4, 0, 0.2, 1);\n            background: linear-gradient(90deg, rgba(0,0,0,0) 0%, rgba(0,0,0,0.01) 50%, rgba(0,0,0,0) 100%);\n            background-size: 200% 100%;\n            background-position: 100% 0;\n        \x7d\n\n        article:nth-child(1) \x7b animation-delay: 0.3s; \x7d\n        article:nth-child(2) \x7b animation-delay: 0.5s; \x7d\n        article:nth-child(3) \x7b animation-delay: 0.7s; \x7d\n        article:nth-child(4) \x7b animation-delay: 0.9s; \x7d\n        article:nth-child(5) \x7b animation-delay: 1.1s; \x7d\n\n        article:last-child \x7b\n            border-bottom: none;\n        \x7d\n\n        article::before \x7b\n            content: \x27\x27;\n            position: absolute;\n            left: 0;\n            top: 50%;\n            transform: translateY(-50%);\n            width: 0;\n            height: 60%;\n            background: #000;\n            transition: width 0.4s cubic-bezier(0.4, 0, 0.2, 1);\n        \x7d\n\n        article:hover \x7b\n            padding-left: 32px;\n            background-position: 0% 0;\n        \x7d\n\n        article:hover::before \x7b\n            width: 3px;\n        \x7d\n\n        article:hover .article-title \x7b\n            transform: translateX(8px);\n            color: #000;\n        \x7d\n\n        article:hover .article-excerpt \x7b\n            transform: translateX(8px);\n            color: #1d1d1f;\n        \x7d\n\n        article:hover .arrow \x7b\n            opacity: 1;\n            transform: translateX(0);\n        \x7d\n\n        .article-date \x7b\n            color: #86868b;\n            font-size: 0.95em;\n            margin-bottom: 12px;\n            font-weight: 400;\n            transition: all 0.4s cubic-bezier(0.4, 0, 0.2, 1);\n        \x7d\n\n        .article-title \x7b\n            font-size: 2em;\n            font-weight: 600;\n            margin-bottom: 16px;\n            color: #1d1d1f;\n            letter-spacing: -0.01em;\n            transition: all 0.4s cubic-bezier(0.4, 0, 0.2, 1);\n            display: flex;\n            align-items: center;\n            gap: 12px;\n        \x7d\n\n        .arrow \x7b\n            opacity: 0;\n            transform: translateX(-10px);\n            transition: all 0.4s cubic-bezier(0.4, 0, 0.2, 1);\n            font-size: 0.8em;\n        \x7d\n\n        .article-excerpt \x7b\n            color: #6e6e73;\n            font-size: 1.1em;\n            line-height: 1.5;\n            transition: all 0.4s cubic-bezier(0.4, 0, 0.2, 1);\n        \x7d\n\n        footer \x7b\n            margin-top: 120px;\n            padding-top: 40px;\n            border-top: 1px solid #e8e8ed;\n            text-align: center;\n            color: #86868b;\n            font-size: 0.9em;\n            opacity: 0;\n            animation: fadeIn 1s ease 1.2s forwards;\n        \x7d\n\n        @keyframes slideUp \x7b\n            from \x7b\n                opacity: 0;\n                transform: translateY(30px);\n            \x7d\n            to \x7b\n                opacity: 1;\n                transform: translateY(0);\n            \x7d\n        \x7d\n\n        @keyframes fadeIn \x7b\n            from \x7b\n                opacity: 0;\n            \x7d\n            to \x7b\n                opacity: 1;\n            \x7d\n        \x7d\n\n        html \x7b\n            scroll-behavior: smooth;\n        \x7d\n\n        article:active \x7b\n            transform: scale(0.99);\n        \x7d\n\n        @media (max-width: 600px) \x7b\n            body \x7b\n                padding: 40px 20px;\n            \x7d\n            \n            h1 \x7b\n                font-size: 2.5em;\n            \x7d\n            \n            header \x7b\n                margin-bottom: 60px;\n            \x7d\n            \n            .intro \x7b\n                font-size: 1.1em;\n            \x7d\n            \n            .article-title \x7b\n                font-size: 1.6em;\n            \x7d\n            \n            article \x7b\n                padding: 30px 15px;\n            \x7d\n\n            article:hover \x7b\n                padding-left: 24px;\n            \x7d\n        \x7d\n    </style>\n</head>\n<body>\n    <div class=\"container\">\n        <header>\n            <a href=\""

/-- Index template segment between the portfolio URL and the page heading title. -/
def idxTplC : Str := String.toList "\" class=\"back-to-portfolio\">← Back to Portfolio</a>\n            <h1>"

/-- Index template segment between the page heading and the tagline. -/
def idxTplD : Str := String.toList "</h1>\n            <p class=\"intro\">"

/-- Index template segment between the tagline and the article entries. -/
def idxTplE : Str := String.toList "</p>\n        </header>\n\n        <div class=\"essays\">\n"

/-- Index template segment between the article entries and the footer year. -/
def idxTplF : Str := String.toList "\n        </div>\n\n        <footer>\n            <p>© "

/-- Index template segment after the footer year. -/
def idxTplG : Str := String.toList "</p>\n        </footer>\n    </div>\n</body>\n</html>"
/-- Model of convert_plain_text_to_html (source lines 321-440). The string
datetime.now().strftime("%B %d, %Y") interpolated into the template is an
effect of the clock and is passed in as todayStr. -/
def convert_plain_text_to_html (text_content title todayStr : Str) : Str :=
  let paragraphs := ((splitOnBlank text_content).map pyStrip).filter (fun p => !p.isEmpty)
  let html_content := (paragraphs.map renderPara).flatten
  artTplA ++ title ++ artTplB ++ title ++ artTplC ++ todayStr ++ artTplD ++ html_content ++ artTplE

/-- Configuration constant BLOG_TITLE (source line 8). -/
def BLOG_TITLE : Str := String.toList "Essays"

/-- Configuration constant PORTFOLIO_URL (source line 7). -/
def PORTFOLIO_URL : Str := String.toList "https://simplr-k18.github.io/rishanth_reddy/"

/-- Configuration constant BLOG_TAGLINE (source line 9). -/
def BLOG_TAGLINE : Str := String.toList "Thoughts on technology, design, and what matters."

/-- One entry block of the index page (source lines 54-67). The delay value
0.3 + 0.2 * index is computed in the source but never interpolated into the
entry, so the entry does not depend on the position. -/
def articleEntryHtml (article : ArticleMetadata) : Str :=
  entryTplA ++ article.filename ++ entryTplB ++ article.date ++ entryTplC
    ++ article.title ++ entryTplD ++ article.excerpt ++ entryTplE

/-- Model of generate_index_html (source lines 50-319). The current year of
the footer is an effect of the clock and is passed in as yearStr. -/
def generate_index_html (articles : List ArticleMetadata) (yearStr : Str) : Str :=
  let articles_html := (articles.map articleEntryHtml).flatten
  idxTplA ++ BLOG_TITLE ++ idxTplB ++ PORTFOLIO_URL ++ idxTplC ++ BLOG_TITLE
    ++ idxTplD ++ BLOG_TAGLINE ++ idxTplE ++ articles_html ++ idxTplF ++ yearStr ++ idxTplG

/-- The slug computation of main (source lines 463-464): lower-case the title,
replace spaces with hyphens, drop every character outside [a-z0-9-]. -/
def pySlugify (article_title : Str) : Str :=
  ((article_title.map Char.toLower).map (fun c => if c = ' ' then '-' else c)).filter
    (fun c => ('a' ≤ c && c ≤ 'z') || ('0' ≤ c && c ≤ '9') || c = '-')

/-- The command-line flag selecting conversion mode. -/
def convertFlag : Str := String.toList "--convert"

/-- The message printed when the articles directory holds no HTML file
(source line 482). -/
def noArticlesMsg : Str := String.toList "No articles found in articles/ directory"

/-- The message printed when the conversion source file is missing
(source line 459). -/
def errMsg (text_file : Str) : Str :=
  String.toList "Error: File \x27" ++ text_file ++ String.toList "\x27 not found"

/-- The first success message of the conversion branch (source line 474). -/
def convertedMsg (text_file output_path : Str) : Str :=
  String.toList "✓ Converted \x27" ++ text_file ++ String.toList "\x27 to \x27"
    ++ output_path ++ String.toList "\x27"

/-- The second success message of the conversion branch (source line 475). -/
def titleMsg (article_title : Str) : Str := String.toList "✓ Title: " ++ article_title

/-- The per-article message of the scan loop (source line 490). -/
def foundMsg (t : Str) : Str := String.toList "Found: " ++ t

/-- The summary message after the index is written (source line 497). -/
def generatedMsg (n : Nat) : Str :=
  String.toList "\n✓ Generated index.html with " ++ String.toList (Nat.repr n)
    ++ String.toList " article(s)"

/-- The final message after the index is written (source line 498). -/
def readyMsg : Str := String.toList "✓ Ready to commit and push!"

/-- Result of the scan-and-index phase of main (source lines 477-498):
the messages printed, in order, and the contents of index.html when it is
written. -/
structure ScanResult where
  printed : List Str
  indexWrite : Option Str
deriving Repr, DecidableEq

/-- The scan-and-index phase of main (source lines 477-498). articleFiles is
the glob("*.html") listing of the articles directory at scan time, already in
the order produced by sorted(..., key=os.path.getmtime, reverse=True);
contentsOf and mtimeStrOf give each file its contents and its formatted
modification time. When the listing is empty, main prints a report and returns
without writing index.html. -/
def scanPhase (articleFiles : List Str) (contentsOf mtimeStrOf : Str → Str)
    (yearStr : Str) : ScanResult :=
  if articleFiles.isEmpty then
    { printed := [noArticlesMsg], indexWrite := none }
  else
    let articles := articleFiles.map
      (fun fp => extract_metadata_from_html (contentsOf fp) (mtimeStrOf fp) fp)
    { printed := articles.map (fun m => foundMsg m.title)
        ++ [generatedMsg articles.length, readyMsg],
      indexWrite := some (generate_index_html articles yearStr) }

/-- Observable outcome of one run of main: the messages printed in order, the
article file written by the conversion branch (path and contents), the
contents of index.html when it is written, and the process exit status. -/
structure MainOutcome where
  printed : List Str
  articleWrite : Option (Str × Str)
  indexWrite : Option Str
  exitCode : Nat
deriving Repr, DecidableEq

/-- Model of main (source lines 442-498). argv is sys.argv (the program name
first); readTextFile returns the contents of the conversion source file, or
none when opening it raises FileNotFoundError. Every modelled path returns
normally from main, so the exit status is 0. The mkdir of line 447 only
touches the filesystem and is not part of the outcome. -/
def mainModel (argv : List Str) (readTextFile : Str → Option Str)
    (articleFiles : List Str) (contentsOf mtimeStrOf : Str → Str)
    (todayStr yearStr : Str) : MainOutcome :=
  match argv with
  | _ :: a1 :: text_file :: article_title :: _ =>
    if a1 = convertFlag then
      match readTextFile text_file with
      | none =>
        { printed := [errMsg text_file], articleWrite := none,
          indexWrite := none, exitCode := 0 }
      | some text_content =>
        let filename := pySlugify article_title
        let output_path := String.toList "articles/" ++ filename ++ String.toList ".html"
        let article_html := convert_plain_text_to_html text_content article_title todayStr
        let s := scanPhase articleFiles contentsOf mtimeStrOf yearStr
        { printed := [convertedMsg text_file output_path, titleMsg article_title]
            ++ s.printed,
          articleWrite := some (output_path, article_html),
          indexWrite := s.indexWrite, exitCode := 0 }
    else
      let s := scanPhase articleFiles contentsOf mtimeStrOf yearStr
      { printed := s.printed, articleWrite := none,
        indexWrite := s.indexWrite, exitCode := 0 }
  | _ =>
    let s := scanPhase articleFiles contentsOf mtimeStrOf yearStr
    { printed := s.printed, articleWrite := none,
      indexWrite := s.indexWrite, exitCode := 0 }

/-- Bool test that pat occurs as a contiguous substring of l. -/
def containsSub (pat : Str) : Str → Bool
  | [] => List.isPrefixOf pat []
  | c :: cs => List.isPrefixOf pat (c :: cs) || containsSub pat cs

/-- A fixed value for the clock-dependent date string, used by the concrete
instances below. -/
def sampleToday : Str := String.toList "October 12, 2026"

/-- C3: the date field of the returned metadata is exactly the formatted file
modification time passed in, and it is independent of the file contents, so no
date parsed from the markup can appear in the result. -/
theorem c3_date_is_mtime (content dateStr filepath : Str) :
    (extract_metadata_from_html content dateStr filepath).date = dateStr
    ∧ ∀ other : Str, (extract_metadata_from_html other dateStr filepath).date
        = (extract_metadata_from_html content dateStr filepath).date :=
  ⟨rfl, fun _ => rfl⟩

/-- C2: whenever the extractor finds a first-paragraph excerpt, a cleaned text
longer than 150 characters is returned as exactly its first 147 characters
followed by "...", 150 characters in total, and a cleaned text of at most 150
characters is returned unchanged. -/
theorem c2_excerpt_cap (content dateStr filepath e : Str)
    (h : cleanExcerptOf content = some e) :
    (150 < e.length →
      (extract_metadata_from_html content dateStr filepath).excerpt
          = e.take 147 ++ ['.', '.', '.']
        ∧ (extract_metadata_from_html content dateStr filepath).excerpt.length = 150)
    ∧ (e.length ≤ 150 →
      (extract_metadata_from_html content dateStr filepath).excerpt = e) := by
  constructor
  · intro hl
    have hx : (extract_metadata_from_html content dateStr filepath).excerpt
        = e.take 147 ++ ['.', '.', '.'] := by
      simp only [extract_metadata_from_html, h, pyTruncate, if_pos hl]
    refine ⟨hx, ?_⟩
    rw [hx, List.length_append, List.length_take]
    have h3 : ['.', '.', '.'].length = 3 := rfl
    omega
  · intro hl
    simp only [extract_metadata_from_html, h, pyTruncate]
    rw [if_neg (by omega)]

/-- A concrete article whose cleaned first-paragraph text has 160 characters. -/
def c2Content : Str :=
  String.toList "<article><p>" ++ List.replicate 160 'a' ++ String.toList "</p></article>"

set_option maxRecDepth 40000 in
/-- C2 witness: for the concrete 160-character excerpt the extractor returns
the first 147 characters followed by the three-character ellipsis. -/
theorem c2_excerpt_cap_witness :
    (extract_metadata_from_html c2Content (String.toList "May 2024")
        (String.toList "articles/a.html")).excerpt
      = List.replicate 147 'a' ++ ['.', '.', '.'] := by
  have h := (c2_excerpt_cap c2Content (String.toList "May 2024")
      (String.toList "articles/a.html") (List.replicate 160 'a') (by decide)).1 (by decide)
  rw [h.1]
  decide

/-- A paragraph that starts with two # characters also starts with one. -/
theorem hash_of_hashHash {para : Str}
    (h : List.isPrefixOf ['#', '#'] para = true) : List.isPrefixOf ['#'] para = true := by
  cases para with
  | nil => simp [List.isPrefixOf] at h
  | cons c cs =>
    cases cs with
    | nil => simp [List.isPrefixOf] at h
    | cons d ds =>
      simp [List.isPrefixOf] at h ⊢
      exact h.1

/-- A heading fragment is never equal to a body-paragraph fragment: they
differ at their second character. -/
theorem h2_ne_p (t u : Str) : h2OpenLit ++ u ++ h2CloseLit ≠ pOpenLit ++ t ++ pCloseLit := by
  intro heq
  simp only [h2OpenLit, pOpenLit, List.cons_append, List.nil_append] at heq
  have h3 := congrArg (fun l => l[1]?) heq
  simp at h3

/-- The paragraph used as counterexample input for the emphasis-marker claim. -/
def c4Para : Str := String.toList "x **a** y **b** z *c* w"

set_option maxRecDepth 40000 in
/-- C4 counterexample: a body paragraph holding two bold markers and one italic
marker is emitted verbatim, markers included, and the converted document
contains no emphasis markup at all. -/
theorem c4_counterexample :
    renderPara c4Para = String.toList "<p>x **a** y **b** z *c* w</p>\n\n"
    ∧ containsSub (String.toList "<em")
        (convert_plain_text_to_html c4Para (String.toList "T") sampleToday) = false
    ∧ containsSub (String.toList "<strong")
        (convert_plain_text_to_html c4Para (String.toList "T") sampleToday) = false := by
  exact ⟨by decide, by decide, by decide⟩

/-- C4 (amended): the converter performs no emphasis substitution; every
paragraph classified as body text is emitted verbatim between the paragraph
tags, with the ** and * markers left in place and the surrounding text
unchanged. -/
theorem c4_body_verbatim (para : Str)
    (h1 : List.isPrefixOf ['#'] para = false)
    (h2 : ¬(pyIsUpper para = true ∧ para.length < 80)) :
    renderPara para = pOpenLit ++ para ++ pCloseLit := by
  have h1' : List.isPrefixOf ['#', '#'] para = false := by
    cases hpp : List.isPrefixOf ['#', '#'] para with
    | false => rfl
    | true => rw [hash_of_hashHash hpp] at h1; exact absurd h1 (by simp)
  unfold renderPara
  rw [if_neg (by simp [h1]), if_neg (by simp [h1']), if_neg h2]

set_option maxRecDepth 40000 in
/-- C4 witness: the counterexample paragraph satisfies the body-text
hypotheses and is rendered verbatim. -/
theorem c4_body_verbatim_witness :
    List.isPrefixOf ['#'] c4Para = false
    ∧ ¬(pyIsUpper c4Para = true ∧ c4Para.length < 80)
    ∧ renderPara c4Para = pOpenLit ++ c4Para ++ pCloseLit :=
  ⟨by decide, by decide, c4_body_verbatim c4Para (by decide) (by decide)⟩

/-- C5: a paragraph that is entirely upper-case and shorter than 80 characters
is always rendered as a heading element and never as a body-paragraph
element, whether or not it also starts with a # marker. -/
theorem c5_uppercase_heading (para : Str)
    (hu : pyIsUpper para = true) (hl : para.length < 80) :
    (∃ u, renderPara para = h2OpenLit ++ u ++ h2CloseLit)
    ∧ ∀ t, renderPara para ≠ pOpenLit ++ t ++ pCloseLit := by
  unfold renderPara
  cases h1 : List.isPrefixOf ['#'] para with
  | true =>
    rw [if_pos (by simp [h1])]
    exact ⟨⟨pyStrip (para.dropWhile (fun c => c = '#')), rfl⟩, fun t => h2_ne_p t _⟩
  | false =>
    have h1' : List.isPrefixOf ['#', '#'] para = false := by
      cases hpp : List.isPrefixOf ['#', '#'] para with
      | false => rfl
      | true => rw [hash_of_hashHash hpp] at h1; exact absurd h1 (by simp)
    rw [if_neg (by simp [h1]), if_neg (by simp [h1']), if_pos ⟨hu, hl⟩]
    exact ⟨⟨para, rfl⟩, fun t => h2_ne_p t _⟩

/-- C5 witness: the concrete all-uppercase paragraph HELLO WORLD satisfies the
hypotheses and is rendered as a heading, never as a body paragraph. -/
theorem c5_uppercase_heading_witness :
    pyIsUpper (String.toList "HELLO WORLD") = true
    ∧ (String.toList "HELLO WORLD").length < 80
    ∧ ((∃ u, renderPara (String.toList "HELLO WORLD") = h2OpenLit ++ u ++ h2CloseLit)
       ∧ ∀ t, renderPara (String.toList "HELLO WORLD") ≠ pOpenLit ++ t ++ pCloseLit) :=
  ⟨by decide, by decide,
   c5_uppercase_heading (String.toList "HELLO WORLD") (by decide) (by decide)⟩

/-- The demo source text of the end-to-end property in the specification. -/
def demoText : Str := String.toList "# Intro\n\nHello world.\n\n# Conclusion\n\nBye."

/-- The document produced by converting the demo text with title "Demo". -/
def demoOut : Str := convert_plain_text_to_html demoText (String.toList "Demo") sampleToday

set_option maxRecDepth 40000 in
/-- C1 counterexample: in the document produced from the demo text the string
"intro" does not occur at all, and neither does "conclusion", so the document
holds no heading with identifier "intro" or "conclusion" and no
table-of-contents entry naming them. -/
theorem c1_counterexample :
    containsSub (String.toList "intro") demoOut = false
    ∧ containsSub (String.toList "conclusion") demoOut = false := by
  exact ⟨by decide, by decide⟩

set_option maxRecDepth 40000 in
/-- C1 (amended): converting the demo text with title "Demo" produces an HTML
document holding, as one contiguous block and in this order, the heading
elements for Intro and Conclusion and the paragraphs Hello world. and Bye.;
the headings carry no id attribute (the two-character string id= never
occurs) and no table of contents is generated. -/
theorem c1_demo_conversion :
    containsSub (String.toList
        "<h2>Intro</h2>\n\n<p>Hello world.</p>\n\n<h2>Conclusion</h2>\n\n<p>Bye.</p>\n\n")
      demoOut = true
    ∧ containsSub (String.toList "id=") demoOut = false := by
  exact ⟨by decide, by decide⟩

/-- The command line of the multi-word-title counterexample:
generate_blog.py --convert essay.txt My Title. -/
def c6Argv : List Str :=
  [String.toList "generate_blog.py", convertFlag, String.toList "essay.txt",
   String.toList "My", String.toList "Title"]

/-- C6 counterexample: invoked with --convert essay.txt My Title, main uses
only sys.argv[3] as the title: the second message reports the title as My and
the output path is articles/my.html; the join of the remaining arguments,
My Title, is a different title and would give the path articles/my-title.html. -/
theorem c6_counterexample :
    (mainModel c6Argv (fun _ => some (String.toList "Body text.")) []
        (fun _ => []) (fun _ => []) sampleToday (String.toList "2026")).printed[1]?
      = some (titleMsg (String.toList "My"))
    ∧ titleMsg (String.toList "My") ≠ titleMsg (String.toList "My Title")
    ∧ ((mainModel c6Argv (fun _ => some (String.toList "Body text.")) []
        (fun _ => []) (fun _ => []) sampleToday (String.toList "2026")).articleWrite.map
          Prod.fst)
      = some (String.toList "articles/my.html")
    ∧ String.toList "articles/my.html"
      ≠ String.toList "articles/" ++ pySlugify (String.toList "My Title")
          ++ String.toList ".html" := by
  refine ⟨by decide, by decide, by decide, by decide⟩

/-- C6 (amended): in conversion mode the article title is exactly the fourth
command-line entry sys.argv[3]; every later argument is ignored, so the whole
outcome of the run equals the outcome with the extra arguments removed, and
the reported title is the fourth entry alone. -/
theorem c6_title_is_fourth_argument (prog text_file article_title : Str)
    (rest : List Str) (readTextFile : Str → Option Str) (articleFiles : List Str)
    (contentsOf mtimeStrOf : Str → Str) (todayStr yearStr : Str) (text_content : Str)
    (h : readTextFile text_file = some text_content) :
    mainModel (prog :: convertFlag :: text_file :: article_title :: rest)
        readTextFile articleFiles contentsOf mtimeStrOf todayStr yearStr
      = mainModel [prog, convertFlag, text_file, article_title]
          readTextFile articleFiles contentsOf mtimeStrOf todayStr yearStr
    ∧ (mainModel (prog :: convertFlag :: text_file :: article_title :: rest)
        readTextFile articleFiles contentsOf mtimeStrOf todayStr yearStr).printed[1]?
      = some (titleMsg article_title) := by
  constructor
  · simp only [mainModel, h]
  · simp only [mainModel, h, eq_self_iff_true, if_true]
    simp

/-- C6 witness: the amended statement at the concrete counterexample command
line, where the extra argument Title is dropped. -/
theorem c6_title_is_fourth_argument_witness :
    (fun (_ : Str) => some (String.toList "Body text.")) (String.toList "essay.txt")
      = some (String.toList "Body text.")
    ∧ (mainModel c6Argv (fun _ => some (String.toList "Body text.")) []
          (fun _ => []) (fun _ => []) sampleToday (String.toList "2026")
        = mainModel [String.toList "generate_blog.py", convertFlag,
            String.toList "essay.txt", String.toList "My"]
          (fun _ => some (String.toList "Body text.")) []
          (fun _ => []) (fun _ => []) sampleToday (String.toList "2026")
      ∧ (mainModel c6Argv (fun _ => some (String.toList "Body text.")) []
          (fun _ => []) (fun _ => []) sampleToday (String.toList "2026")).printed[1]?
        = some (titleMsg (String.toList "My"))) :=
  ⟨rfl, c6_title_is_fourth_argument (String.toList "generate_blog.py")
    (String.toList "essay.txt") (String.toList "My") [String.toList "Title"]
    (fun _ => some (String.toList "Body text.")) [] (fun _ => []) (fun _ => [])
    sampleToday (String.toList "2026") (String.toList "Body text.") rfl⟩

/-- C8: when the conversion source file cannot be opened, main prints exactly
the error message and returns at once: no article file is written, no index is
written, and the function returns normally. -/
theorem c8_missing_source (prog text_file article_title : Str) (rest : List Str)
    (readTextFile : Str → Option Str) (articleFiles : List Str)
    (contentsOf mtimeStrOf : Str → Str) (todayStr yearStr : Str)
    (h : readTextFile text_file = none) :
    mainModel (prog :: convertFlag :: text_file :: article_title :: rest)
        readTextFile articleFiles contentsOf mtimeStrOf todayStr yearStr
      = { printed := [errMsg text_file], articleWrite := none,
          indexWrite := none, exitCode := 0 } := by
  simp only [mainModel, h, eq_self_iff_true, if_true]

/-- C8 witness: the concrete run generate_blog.py --convert gone.txt T with a
missing source file prints the error and writes nothing. -/
theorem c8_missing_source_witness :
    (fun (_ : Str) => (none : Option Str)) (String.toList "gone.txt") = none
    ∧ mainModel [String.toList "generate_blog.py", convertFlag,
          String.toList "gone.txt", String.toList "T"]
        (fun _ => none) [] (fun _ => []) (fun _ => []) sampleToday (String.toList "2026")
      = { printed := [errMsg (String.toList "gone.txt")], articleWrite := none,
          indexWrite := none, exitCode := 0 } :=
  ⟨rfl, c8_missing_source (String.toList "generate_blog.py") (String.toList "gone.txt")
    (String.toList "T") [] (fun _ => none) [] (fun _ => []) (fun _ => [])
    sampleToday (String.toList "2026") rfl⟩

/-- C9: when --convert appears nowhere on the command line and the articles
listing is empty, main prints exactly the no-articles report, writes no index
file and no article file, and returns normally, so the process exit status
is 0. -/
theorem c9_empty_scan (argv : List Str) (readTextFile : Str → Option Str)
    (contentsOf mtimeStrOf : Str → Str) (todayStr yearStr : Str)
    (h : convertFlag ∉ argv) :
    mainModel argv readTextFile [] contentsOf mtimeStrOf todayStr yearStr
      = { printed := [noArticlesMsg], articleWrite := none,
          indexWrite := none, exitCode := 0 } := by
  match argv with
  | [] => rfl
  | [_] => rfl
  | [_, _] => rfl
  | [_, _, _] => rfl
  | p :: a1 :: a2 :: a3 :: rest =>
    have ha : ¬ a1 = convertFlag := by
      intro he
      apply h
      rw [← he]
      exact List.mem_cons_of_mem _ (List.mem_cons_self _ _)
    simp only [mainModel, if_neg ha]
    rfl

/-- C9 witness: the concrete run with the bare command line and an empty
articles directory. -/
theorem c9_empty_scan_witness :
    convertFlag ∉ [String.toList "generate_blog.py"]
    ∧ mainModel [String.toList "generate_blog.py"] (fun _ => none) []
        (fun _ => []) (fun _ => []) sampleToday (String.toList "2026")
      = { printed := [noArticlesMsg], articleWrite := none,
          indexWrite := none, exitCode := 0 } :=
  ⟨by decide, c9_empty_scan [String.toList "generate_blog.py"] (fun _ => none)
    (fun _ => []) (fun _ => []) sampleToday (String.toList "2026") (by decide)⟩

/-- C10: invoking main with --convert and a source file but no title, three
argv entries in all, silently skips the conversion branch: the outcome is
identical to a run with no arguments at all, no article file is written and
no error is reported. -/
theorem c10_convert_without_title (prog text_file : Str)
    (readTextFile : Str → Option Str) (articleFiles : List Str)
    (contentsOf mtimeStrOf : Str → Str) (todayStr yearStr : Str) :
    mainModel [prog, convertFlag, text_file] readTextFile articleFiles
        contentsOf mtimeStrOf todayStr yearStr
      = mainModel [prog] readTextFile articleFiles contentsOf mtimeStrOf todayStr yearStr
    ∧ (mainModel [prog, convertFlag, text_file] readTextFile articleFiles
        contentsOf mtimeStrOf todayStr yearStr).articleWrite = none :=
  ⟨rfl, rfl⟩

/-- A case-insensitive literal match survives extending the list on the right. -/
theorem ciStartsWith_append {pat l : Str} (r : Str) (h : ciStartsWith pat l = true) :
    ciStartsWith pat (l ++ r) = true := by
  induction pat generalizing l with
  | nil => rfl
  | cons p ps ih =>
    cases l with
    | nil => simp [ciStartsWith] at h
    | cons c cs =>
      simp only [List.cons_append, ciStartsWith, Bool.and_eq_true] at h ⊢
      exact ⟨h.1, ih h.2⟩

/-- The non-greedy title group: on text t free of newlines and holding no
case-variant close tag, followed by a case-variant close tag, the group is
exactly t. -/
theorem titleGroup_append (t cl post : Str)
    (hcl : ciStartsWith titleClosePat cl = true) (hclen : cl.length = 8) :
    '\n' ∉ t →
    (∀ k, k < t.length → ciStartsWith titleClosePat ((t ++ (cl ++ post)).drop k) = false) →
    titleGroup (t ++ (cl ++ post)) = some t := by
  induction t with
  | nil =>
    intro _ _
    simp only [List.nil_append]
    cases cl with
    | nil => simp at hclen
    | cons c cs =>
      have hcp : ciStartsWith titleClosePat (c :: (cs ++ post)) = true := by
        have h1 := ciStartsWith_append post hcl
        simpa using h1
      simp only [List.cons_append, titleGroup, List.append_eq, hcp, if_true]
  | cons a t' ih =>
    intro hn hk
    have h0 := hk 0 (by simp)
    rw [List.drop_zero] at h0
    have ha : ¬ a = '\n' := by
      intro he
      rw [he] at hn
      exact hn (List.mem_cons_self _ _)
    have hn' : '\n' ∉ t' := fun hm => hn (List.mem_cons_of_mem _ hm)
    have hk' : ∀ k, k < t'.length →
        ciStartsWith titleClosePat ((t' ++ (cl ++ post)).drop k) = false := by
      intro k hkk
      have h2 := hk (k + 1) (by simp only [List.length_cons]; omega)
      simpa [List.drop_succ_cons] using h2
    have hrec := ih hn' hk'
    simp only [List.cons_append] at h0 ⊢
    simp only [titleGroup, List.append_eq, h0, Bool.false_eq_true, if_false, ha, hrec]
    rfl

/-- The title search: when the document splits as pre, then a case-variant
open tag, then group text, then a case-variant close tag, and no case-variant
open tag occurs anywhere in pre, the search returns exactly the group text. -/
theorem searchTitleTag_found (pre o t cl post : Str)
    (ho : ciStartsWith titleOpenPat o = true) (holen : o.length = 7)
    (hcl : ciStartsWith titleClosePat cl = true) (hclen : cl.length = 8)
    (hn : '\n' ∉ t)
    (hk : ∀ k, k < t.length → ciStartsWith titleClosePat ((t ++ (cl ++ post)).drop k) = false) :
    (∀ i, i < pre.length →
      ciStartsWith titleOpenPat ((pre ++ (o ++ (t ++ (cl ++ post)))).drop i) = false) →
    searchTitleTag (pre ++ (o ++ (t ++ (cl ++ post)))) = some t := by
  induction pre with
  | nil =>
    intro _
    simp only [List.nil_append]
    cases o with
    | nil => simp at holen
    | cons c cs =>
      have hop : ciStartsWith titleOpenPat (c :: (cs ++ (t ++ (cl ++ post)))) = true := by
        have h1 := ciStartsWith_append (t ++ (cl ++ post)) ho
        simpa using h1
      have hdrop : (c :: (cs ++ (t ++ (cl ++ post)))).drop 7 = t ++ (cl ++ post) := by
        have h2 : ((c :: cs) ++ (t ++ (cl ++ post))).drop (c :: cs).length
            = t ++ (cl ++ post) := List.drop_left _ _
        rw [holen] at h2
        simpa using h2
      have hg := titleGroup_append t cl post hcl hclen hn hk
      simp only [searchTitleTag, List.append_eq, hop, if_true, hdrop, hg]
  | cons a pre' ih =>
    intro hpre
    have h0 := hpre 0 (by simp)
    rw [List.drop_zero] at h0
    simp only [List.cons_append] at h0 ⊢
    simp only [searchTitleTag, h0, Bool.false_eq_true, if_false]
    apply ih
    intro i hi
    have h2 := hpre (i + 1) (by simp only [List.length_cons]; omega)
    simpa [List.drop_succ_cons] using h2

/-- C7: when the document contains a well-formed title tag - a first
case-variant occurrence of the open tag, then title text free of newlines and
of any case-variant close tag, then a case-variant close tag - the extractor
returns exactly that enclosed text as the title; and when the title pattern
matches nowhere, the returned title is exactly Untitled. -/
theorem c7_title (content dateStr filepath pre o t cl post : Str) :
    (content = pre ++ (o ++ (t ++ (cl ++ post))) →
     ciStartsWith titleOpenPat o = true → o.length = 7 →
     ciStartsWith titleClosePat cl = true → cl.length = 8 →
     (∀ i, i < pre.length → ciStartsWith titleOpenPat (content.drop i) = false) →
     '\n' ∉ t →
     (∀ k, k < t.length → ciStartsWith titleClosePat ((t ++ (cl ++ post)).drop k) = false) →
     (extract_metadata_from_html content dateStr filepath).title = t)
    ∧ (searchTitleTag content = none →
       (extract_metadata_from_html content dateStr filepath).title = untitledLit) := by
  constructor
  · intro hc ho holen hcl hclen hpre hn hk
    subst hc
    have hs := searchTitleTag_found pre o t cl post ho holen hcl hclen hn hk hpre
    simp only [extract_metadata_from_html, hs]
  · intro hnone
    simp only [extract_metadata_from_html, hnone]

/-- A document with one well-formed title tag, used to instantiate C7. -/
def c7Content : Str := String.toList "<html><title>My Post</title></html>"

/-- C7 witness: the concrete document yields title My Post, and a document
with no title tag yields Untitled. -/
theorem c7_title_witness :
    (extract_metadata_from_html c7Content [] []).title = String.toList "My Post"
    ∧ (extract_metadata_from_html (String.toList "<p>no title here</p>") [] []).title
        = untitledLit :=
  ⟨(c7_title c7Content [] [] (String.toList "<html>") (String.toList "<title>")
      (String.toList "My Post") (String.toList "</title>") (String.toList "</html>")).1
      (by decide) (by decide) (by decide) (by decide) (by decide) (by decide) (by decide)
      (by decide),
   (c7_title (String.toList "<p>no title here</p>") [] [] [] [] [] [] []).2 (by decide)⟩
